import Mathlib

/-!
Verification of the Discord guild (server) resource provider
(`discord/resource_discord_server.go`): a shallow embedding of the
resource's data model, schema validation functions and the four CRUD
handlers, together with theorems about their behaviour.

API interactions are instrumented as traces of `ApiCall` events so that
call-order, single-call and no-retry properties can be stated; the Discord
client is a parameter (a record of response functions threading an abstract
state), so both arbitrary clients and a concrete mock can be plugged in.
-/

namespace DiscordProvider

/-- Discord snowflake identifiers (64-bit numeric ids), modelled as `Nat`;
`0` is the zero value (`IsZero` in disgord). -/
abbrev Snowflake := Nat

/-- `disgord.Snowflake.String()`: decimal rendering of a snowflake. -/
def Snowflake.toStr (s : Snowflake) : String := toString s

/-- The value of a decimal digit character. -/
def digitVal (c : Char) : Option Nat :=
  if c.isDigit then some (c.toNat - Char.toNat '0') else none

/-- Reads a decimal numeral from a character list, failing on any
non-digit character. -/
def parseDecAux : List Char → Nat → Option Nat
  | [], acc => some acc
  | c :: cs, acc =>
    match digitVal c with
    | some dv => parseDecAux cs (acc * 10 + dv)
    | none => none

/-- `disgord.ParseSnowflakeString`: parses a decimal string, yielding the
zero snowflake on malformed input. -/
def parseSnowflakeString (s : String) : Snowflake := (parseDecAux s.data 0).getD 0

/-- Modelled from the spec: the repository's `getId` helper is defined
outside the provided source file; per the spec the resource identifier is
"a snowflake string", so `getId` converts the state id string into the
snowflake it denotes. -/
def getId (s : String) : Snowflake := parseSnowflakeString s

/-- Modelled from the spec: the repository's `contains` helper (defined
outside the provided source file) reports membership of a value in a list,
as used by the spec's rule afk_timeout ∈ {60, 300, 900, 1800, 3600}. -/
def repoContains (xs : List Int) (v : Int) : Bool := xs.contains v

/-- A dynamically typed Terraform attribute value (`interface{}` holding
either a schema string or a schema int). -/
inductive GoValue where
  | vStr (s : String)
  | vInt (n : Int)
deriving DecidableEq

/-- Whether a value is its type's zero value (Terraform's `GetOk`
treats zero values as unset). -/
def GoValue.isZero : GoValue → Bool
  | .vStr s => s == ""
  | .vInt n => n == 0

/-- The `.(string)` view of a value; string attributes always hold `vStr`. -/
def GoValue.asStr : GoValue → String
  | .vStr s => s
  | .vInt _ => ""

/-- The `.(int)` view of a value; int attributes always hold `vInt`. -/
def GoValue.asInt : GoValue → Int
  | .vInt n => n
  | .vStr _ => 0

/-- `*schema.ResourceData`: the resource's id, its attribute store, and the
set of keys the plan marked as changed (`HasChange`). -/
structure ResourceData where
  id : String
  attrs : List (String × GoValue)
  hasChangeKeys : List String
deriving DecidableEq

/-- `d.Get(k)` followed by `.(string)`. -/
def ResourceData.getStr (d : ResourceData) (k : String) : String :=
  match d.attrs.lookup k with
  | some v => v.asStr
  | none => ""

/-- `d.Get(k)` followed by `.(int)`. -/
def ResourceData.getInt (d : ResourceData) (k : String) : Int :=
  match d.attrs.lookup k with
  | some v => v.asInt
  | none => 0

/-- `d.GetOk(k)`: the value when it is present and non-zero. -/
def ResourceData.getOk (d : ResourceData) (k : String) : Option GoValue :=
  match d.attrs.lookup k with
  | some v => if v.isZero then none else some v
  | none => none

/-- `d.HasChange(k)`. -/
def ResourceData.hasChange (d : ResourceData) (k : String) : Bool :=
  d.hasChangeKeys.contains k

/-- `d.Set(k, v)`: the new binding shadows any older one. -/
def ResourceData.setAttr (d : ResourceData) (k : String) (v : GoValue) : ResourceData :=
  { d with attrs := (k, v) :: d.attrs }

/-- `d.SetId(s)`. -/
def ResourceData.setId (d : ResourceData) (s : String) : ResourceData :=
  { d with id := s }

/-- One Terraform diagnostic. -/
structure Diag where
  msg : String
deriving DecidableEq

/-- `diag.Diagnostics`. -/
abbrev Diagnostics := List Diag

/-- `diag.Errorf`: a single error diagnostic holding the formatted string. -/
def errorf (s : String) : Diagnostics := [⟨s⟩]

/-! ## Schema validation functions (`baseServerSchema`) -/

/-- The `verification_level` ValidateFunc: warnings and errors. -/
def verificationLevelValidate (v : Int) : List String × List String :=
  if v > 4 || v < 0 then
    ([], ["verification_level must be between 0 and 4 inclusive, got: " ++ toString v])
  else
    ([], [])

/-- The `explicit_content_filter` ValidateFunc: warnings and errors. -/
def explicitContentFilterValidate (v : Int) : List String × List String :=
  if v > 2 || v < 0 then
    ([], ["explicit_content_filter must be between 0 and 2 inclusive, got: " ++ toString v])
  else
    ([], [])

/-- The `default_message_notifications` ValidateFunc: warnings and errors. -/
def defaultMessageNotificationsValidate (v : Int) : List String × List String :=
  if v != 0 && v != 1 then
    ([], ["default_message_notifications must be 0 or 1, got: " ++ toString v])
  else
    ([], [])

/-- The `afk_timeout` ValidateFunc: warnings and errors. -/
def afkTimeoutValidate (v : Int) : List String × List String :=
  let expected : List Int := [60, 300, 900, 1800, 3600]
  if !(repoContains expected v) then
    ([], ["afk_timeout must be set to one of the allowed values, got: " ++ toString v])
  else
    ([], [])

/-! ## Discord API data (`disgord` structures, as used by this resource) -/

/-- The fields of `disgord.Guild` this resource reads. -/
structure Guild where
  id : Snowflake
  name : String
  region : String
  icon : String
  splash : String
  verificationLevel : Int
  defaultMessageNotifications : Int
  explicitContentFilter : Int
  afkChannelID : Snowflake
  afkTimeout : Nat
  ownerID : Snowflake
deriving DecidableEq

/-- `disgord.CreateGuild` parameters passed by `resourceServerCreate`
(`Channels` is always nil and omitted). -/
structure CreateGuildParams where
  region : String
  icon : String
  verificationLvl : Int
  defaultMsgNotifications : Int
  explicitContentFilter : Int
deriving DecidableEq

/-- `disgord.UpdateGuild`: optional fields of a guild PATCH
(only the ones this resource sends). -/
structure UpdateGuildParams where
  splash : Option String := none
  afkChannelID : Option Snowflake := none
  ownerID : Option Snowflake := none
deriving DecidableEq

/-- The guild update builder (`UpdateBuilder()`): each `Set*` records the
field to be patched on `Execute()`. -/
structure UpdateBuilder where
  icon : Option String := none
  splash : Option String := none
  afkChannelID : Option Snowflake := none
  afkTimeout : Option Int := none
  ownerID : Option Snowflake := none
  verificationLevel : Option Int := none
  defaultMessageNotifications : Option Int := none
  explicitContentFilter : Option Int := none
  name : Option String := none
  region : Option String := none
deriving DecidableEq

/-- A fresh builder with no field set. -/
def UpdateBuilder.mk0 : UpdateBuilder := {}

def UpdateBuilder.setIcon (b : UpdateBuilder) (v : String) : UpdateBuilder :=
  { b with icon := some v }

def UpdateBuilder.setAfkChannelID (b : UpdateBuilder) (v : Snowflake) : UpdateBuilder :=
  { b with afkChannelID := some v }

def UpdateBuilder.setAfkTimeout (b : UpdateBuilder) (v : Int) : UpdateBuilder :=
  { b with afkTimeout := some v }

def UpdateBuilder.setOwnerID (b : UpdateBuilder) (v : Snowflake) : UpdateBuilder :=
  { b with ownerID := some v }

def UpdateBuilder.setVerificationLevel (b : UpdateBuilder) (v : Int) : UpdateBuilder :=
  { b with verificationLevel := some v }

def UpdateBuilder.setDefaultMessageNotifications (b : UpdateBuilder) (v : Int) : UpdateBuilder :=
  { b with defaultMessageNotifications := some v }

def UpdateBuilder.setExplicitContentFilter (b : UpdateBuilder) (v : Int) : UpdateBuilder :=
  { b with explicitContentFilter := some v }

def UpdateBuilder.setName (b : UpdateBuilder) (v : String) : UpdateBuilder :=
  { b with name := some v }

def UpdateBuilder.setRegion (b : UpdateBuilder) (v : String) : UpdateBuilder :=
  { b with region := some v }

/-! ## The instrumented client -/

/-- The API calls the resource's handlers can issue. -/
inductive ApiCall where
  | createGuild (name : String) (p : CreateGuildParams)
  | getChannels (guildId : Snowflake)
  | deleteChannel (channelId : Snowflake)
  | updateGuild (guildId : Snowflake) (u : UpdateGuildParams)
  | guildUpdateExec (guildId : Snowflake) (b : UpdateBuilder)
  | getGuild (guildId : Snowflake)
  | deleteGuild (guildId : Snowflake)
deriving DecidableEq

/-- A trace entry: the call made and `none` on success or `some e` when
the client answered with error `e`. -/
abbrev TraceEntry := ApiCall × Option String

/-- The Discord client, as a record of response functions threading an
abstract remote state `σ`; errors are the `err.Error()` strings. -/
structure Client (σ : Type) where
  createGuild : String → CreateGuildParams → σ → Except String (Guild × σ)
  getChannels : Snowflake → σ → Except String (List Snowflake × σ)
  deleteChannel : Snowflake → σ → Except String σ
  updateGuild : Snowflake → UpdateGuildParams → σ → Except String (Guild × σ)
  guildUpdateExec : Snowflake → UpdateBuilder → σ → Except String (Guild × σ)
  getGuild : Snowflake → σ → Except String (Guild × σ)
  deleteGuild : Snowflake → σ → Except String σ

/-- External helpers of the provider's environment:
`imgbase64.FromRemote` fetches a URL and encodes it as a data URI. -/
structure Env where
  fromRemote : String → String

/-- The outcome of one CRUD handler: the API calls it made (in order),
the remote state afterwards, the returned diagnostics, and the resource
data afterwards. -/
structure OpResult (σ : Type) where
  trace : List TraceEntry
  state : σ
  diags : Diagnostics
  data : ResourceData

/-- `Snowflake.IsZero()`. -/
def Snowflake.isZero (s : Snowflake) : Bool := s == 0

/-! ## `resourceServerCreate` -/

/-- The icon input: `icon_url` fetched and encoded, overridden by
`icon_data_uri` when set. -/
def createIcon (env : Env) (d : ResourceData) : String :=
  let icon := ""
  let icon := match d.getOk "icon_url" with
    | some v => env.fromRemote v.asStr
    | none => icon
  match d.getOk "icon_data_uri" with
  | some v => v.asStr
  | none => icon

/-- The `disgord.CreateGuild` parameters built from the resource data. -/
def createParams (env : Env) (d : ResourceData) : CreateGuildParams :=
  { region := d.getStr "region"
    icon := createIcon env d
    verificationLvl := d.getInt "verification_level"
    defaultMsgNotifications := d.getInt "default_message_notifications"
    explicitContentFilter := d.getInt "explicit_content_filter" }

/-- The `for _, channel := range channels { Delete() }` loop: deletes until
done or the first error, which aborts the loop. -/
def deleteChannels {σ : Type} (cl : Client σ) :
    List Snowflake → σ → List TraceEntry × σ × Option String
  | [], s => ([], s, none)
  | c :: rest, s =>
    match cl.deleteChannel c s with
    | .error e => ([(.deleteChannel c, some e)], s, some e)
    | .ok s1 =>
      let r := deleteChannels cl rest s1
      ((.deleteChannel c, none) :: r.1, r.2.1, r.2.2)

/-- The splash input: `splash_url` fetched and encoded, overridden by
`splash_data_uri` when set. -/
def createSplash (env : Env) (d : ResourceData) : String :=
  let splash := ""
  let splash := match d.getOk "splash_url" with
    | some v => env.fromRemote v.asStr
    | none => splash
  match d.getOk "splash_data_uri" with
  | some v => v.asStr
  | none => splash

/-- The AFK channel sent in the post-create patch: the configured one, or
the new guild's current one when unset. -/
def createAfkChannel (d : ResourceData) (server : Guild) : Snowflake :=
  match d.getOk "afk_channel_id" with
  | some v => parseSnowflakeString v.asStr
  | none => server.afkChannelID

/-- The AFK timeout sent in the post-create patch (`uint` cast of the
validated int), or the new guild's current one when unset. -/
def createAfkTimeout (d : ResourceData) (server : Guild) : Nat :=
  match d.getOk "afk_timeout" with
  | some v => v.asInt.toNat
  | none => server.afkTimeout

/-- The `edit` flag: set when a splash was produced or `afk_channel_id` /
`afk_timeout` is configured. -/
def createEdit (env : Env) (d : ResourceData) : Bool :=
  (createSplash env d != "") || (d.getOk "afk_channel_id").isSome ||
    (d.getOk "afk_timeout").isSome

/-- The owner patch decision: the parsed `owner_id` when configured and
different from the new guild's owner (avoiding the "User is already owner"
error), otherwise nothing. -/
def createOwnerPatch (d : ResourceData) (server : Guild) : Option Snowflake :=
  match d.getOk "owner_id" with
  | some v =>
    let newOwnerId := parseSnowflakeString v.asStr
    if server.ownerID != newOwnerId then some newOwnerId else none
  | none => none

/-- The tail of `resourceServerCreate`: `d.SetId`, the `owner` /
`icon_hash` / `splash_hash` writes, and the success return. -/
def createSetState {σ : Type} (d : ResourceData) (server : Guild)
    (trAcc : List TraceEntry) (s : σ) : OpResult σ :=
  let d := d.setId (Snowflake.toStr server.id)
  let d := match d.getOk "owner_id" with
    | some _ => d
    | none => d.setAttr "owner" (.vStr (Snowflake.toStr server.ownerID))
  let d := d.setAttr "icon_hash" (.vStr server.icon)
  let d := d.setAttr "splash_hash" (.vStr server.splash)
  ⟨trAcc, s, [], d⟩

/-- The owner-update step of `resourceServerCreate` followed by the final
state writes. -/
def createFinish {σ : Type} (cl : Client σ) (d : ResourceData) (server : Guild)
    (trAcc : List TraceEntry) (s : σ) : OpResult σ :=
  match createOwnerPatch d server with
  | some newOwnerId =>
    let up : UpdateGuildParams := { ownerID := some newOwnerId }
    match cl.updateGuild server.id up s with
    | .error e =>
      ⟨trAcc ++ [(.updateGuild server.id up, some e)], s,
        errorf ("Failed to edit server: " ++ e), d⟩
    | .ok (_, s1) =>
      createSetState d server (trAcc ++ [(.updateGuild server.id up, none)]) s1
  | none => createSetState d server trAcc s

/-- `resourceServerCreate`: create the guild, fetch and delete its default
channels, optionally patch splash / AFK settings, optionally patch the
owner, then record id and computed hashes. -/
def resourceServerCreate {σ : Type} (cl : Client σ) (env : Env)
    (d : ResourceData) (s : σ) : OpResult σ :=
  let name := d.getStr "name"
  let params := createParams env d
  match cl.createGuild name params s with
  | .error e =>
    ⟨[(.createGuild name params, some e)], s,
      errorf ("Failed to create server: " ++ e), d⟩
  | .ok (server, s1) =>
    match cl.getChannels server.id s1 with
    | .error e =>
      ⟨[(.createGuild name params, none), (.getChannels server.id, some e)], s1,
        errorf ("Failed to fetch channels for new server: " ++ e), d⟩
    | .ok (channels, s2) =>
      let pre : List TraceEntry :=
        [(.createGuild name params, none), (.getChannels server.id, none)]
      match deleteChannels cl channels s2 with
      | (tr, s3, some e) =>
        ⟨pre ++ tr, s3, errorf ("Failed to delete channel for new server: " ++ e), d⟩
      | (tr, s3, none) =>
        if createEdit env d then
          let up : UpdateGuildParams :=
            { splash := some (createSplash env d)
              afkChannelID := some (createAfkChannel d server) }
          match cl.updateGuild server.id up s3 with
          | .error e =>
            ⟨pre ++ tr ++ [(.updateGuild server.id up, some e)], s3,
              errorf ("Failed to edit server: " ++ e), d⟩
          | .ok (_, s4) =>
            let b := UpdateBuilder.mk0.setAfkTimeout ((createAfkTimeout d server : Int))
            match cl.guildUpdateExec server.id b s4 with
            | .error e =>
              ⟨pre ++ tr ++ [(.updateGuild server.id up, none),
                  (.guildUpdateExec server.id b, some e)], s4,
                errorf ("Failed to edit server: " ++ e), d⟩
            | .ok (_, s5) =>
              createFinish cl d server
                (pre ++ tr ++ [(.updateGuild server.id up, none),
                  (.guildUpdateExec server.id b, none)]) s5
        else
          createFinish cl d server (pre ++ tr) s3

/-! ## `resourceServerManagedCreate` -/

/-- `resourceServerManagedCreate`: no API call; requires `server_id` to be
set and a string, then adopts it as the resource id. -/
def resourceServerManagedCreate {σ : Type} (_cl : Client σ) (d : ResourceData)
    (s : σ) : OpResult σ :=
  match d.getOk "server_id" with
  | none => ⟨[], s, errorf "Error: server_id must be set", d⟩
  | some serverIdValue =>
    match serverIdValue with
    | .vStr serverId => ⟨[], s, [], d.setId serverId⟩
    | .vInt _ => ⟨[], s, errorf "Error: server_id must be a string", d⟩

/-! ## `resourceServerRead` -/

/-- `resourceServerRead`: fetch the guild and copy its attributes into
state; `afk_channel_id` only when non-zero remotely, `owner_id` only when
currently non-empty and non-zero remotely. -/
def resourceServerRead {σ : Type} (cl : Client σ) (d : ResourceData)
    (s : σ) : OpResult σ :=
  match cl.getGuild (getId d.id) s with
  | .error e =>
    ⟨[(.getGuild (getId d.id), some e)], s,
      errorf ("Error fetching server: " ++ e), d⟩
  | .ok (server, s1) =>
    let d := d.setAttr "name" (.vStr server.name)
    let d := d.setAttr "region" (.vStr server.region)
    let d := d.setAttr "default_message_notifications" (.vInt server.defaultMessageNotifications)
    let d := d.setAttr "afk_timeout" (.vInt ((server.afkTimeout : Int)))
    let d := d.setAttr "icon_hash" (.vStr server.icon)
    let d := d.setAttr "splash_hash" (.vStr server.splash)
    let d := d.setAttr "verification_level" (.vInt server.verificationLevel)
    let d := d.setAttr "default_message_notifications" (.vInt server.defaultMessageNotifications)
    let d := d.setAttr "explicit_content_filter" (.vInt server.explicitContentFilter)
    let d := if !(Snowflake.isZero server.afkChannelID) then
        d.setAttr "afk_channel_id" (.vStr (Snowflake.toStr server.afkChannelID))
      else d
    let d := if d.getStr "owner_id" != "" && !(Snowflake.isZero server.ownerID) then
        d.setAttr "owner_id" (.vStr (Snowflake.toStr server.ownerID))
      else d
    ⟨[(.getGuild (getId d.id), none)], s1, [], d⟩

/-! ## `resourceServerUpdate` -/

/-- One "if changed, set on the builder" check: the key's `HasChange` flag
and the `Set*` call made with the key's new value. -/
abbrev UpdateStep := Bool × (UpdateBuilder → UpdateBuilder)

/-- Runs the flat sequence of checks: a triggered check applies its
setter and raises the `edit` flag. -/
def applySteps : List UpdateStep → UpdateBuilder × Bool → UpdateBuilder × Bool
  | [], be => be
  | (c, f) :: rest, be => applySteps rest (if c then (f be.1, true) else be)

/-- The checks of `resourceServerUpdate`, in source order. Note the
`splash_url` / `splash_data_uri` branches call `SetIcon` (as the source
does), not a splash setter. -/
def updateSteps (env : Env) (d : ResourceData) : List UpdateStep :=
  [(d.hasChange "icon_url", fun b => b.setIcon (env.fromRemote (d.getStr "icon_url"))),
   (d.hasChange "icon_data_uri", fun b => b.setIcon (d.getStr "icon_data_uri")),
   (d.hasChange "splash_url", fun b => b.setIcon (env.fromRemote (d.getStr "splash_url"))),
   (d.hasChange "splash_data_uri", fun b => b.setIcon (d.getStr "splash_data_uri")),
   (d.hasChange "afk_channel_id", fun b => b.setAfkChannelID (parseSnowflakeString (d.getStr "afk_channel_id"))),
   (d.hasChange "afk_timeout", fun b => b.setAfkTimeout (d.getInt "afk_timeout")),
   (d.hasChange "owner_id", fun b => b.setOwnerID (parseSnowflakeString (d.getStr "owner_id"))),
   (d.hasChange "verification_level", fun b => b.setVerificationLevel (d.getInt "verification_level")),
   (d.hasChange "default_message_notifications", fun b => b.setDefaultMessageNotifications (d.getInt "default_message_notifications")),
   (d.hasChange "explicit_content_filter", fun b => b.setExplicitContentFilter (d.getInt "explicit_content_filter")),
   (d.hasChange "name", fun b => b.setName (d.getStr "name")),
   (d.hasChange "region", fun b => b.setRegion (d.getStr "region"))]

/-- The builder and `edit` flag after all checks, including the trailing
`owner_id` block (which also fires when `owner_id` is merely set). -/
def buildServerUpdate (env : Env) (d : ResourceData) (server : Guild) :
    UpdateBuilder × Bool :=
  let be := applySteps (updateSteps env d) (UpdateBuilder.mk0, false)
  let ownerId := d.getOk "owner_id"
  if d.hasChange "owner_id" then
    match ownerId with
    | some v => (be.1.setOwnerID (getId v.asStr), true)
    | none => be
  else
    match ownerId with
    | some _ => (be.1.setOwnerID server.ownerID, true)
    | none => be

/-- `resourceServerUpdate`: fetch the guild, run the checks, and execute
the builder when the `edit` flag was raised. -/
def resourceServerUpdate {σ : Type} (cl : Client σ) (env : Env)
    (d : ResourceData) (s : σ) : OpResult σ :=
  match cl.getGuild (getId d.id) s with
  | .error e =>
    ⟨[(.getGuild (getId d.id), some e)], s,
      errorf ("Error fetching server: " ++ e), d⟩
  | .ok (server, s1) =>
    let be := buildServerUpdate env d server
    if be.2 then
      match cl.guildUpdateExec server.id be.1 s1 with
      | .error e =>
        ⟨[(.getGuild (getId d.id), none), (.guildUpdateExec server.id be.1, some e)],
          s1, errorf ("Failed to edit server: " ++ e), d⟩
      | .ok (_, s2) =>
        ⟨[(.getGuild (getId d.id), none), (.guildUpdateExec server.id be.1, none)],
          s2, [], d⟩
    else
      ⟨[(.getGuild (getId d.id), none)], s1, [], d⟩

/-! ## `resourceServerDelete` and `resourceServerManagedDelete` -/

/-- `resourceServerDelete`: one guild-delete call. -/
def resourceServerDelete {σ : Type} (cl : Client σ) (d : ResourceData)
    (s : σ) : OpResult σ :=
  match cl.deleteGuild (getId d.id) s with
  | .error e =>
    ⟨[(.deleteGuild (getId d.id), some e)], s,
      errorf ("Failed to delete server: " ++ e), d⟩
  | .ok s1 => ⟨[(.deleteGuild (getId d.id), none)], s1, [], d⟩

/-- `resourceServerManagedDelete`: a no-op. -/
def resourceServerManagedDelete {σ : Type} (_cl : Client σ) (d : ResourceData)
    (s : σ) : OpResult σ :=
  ⟨[], s, [], d⟩

/-! ## Helper lemmas about the attribute store -/

theorem getStr_setAttr_self (d : ResourceData) (k : String) (v : GoValue) :
    (d.setAttr k v).getStr k = v.asStr := by
  simp [ResourceData.setAttr, ResourceData.getStr, List.lookup]

theorem getStr_setAttr_ne (d : ResourceData) {k k' : String} (v : GoValue)
    (h : k' ≠ k) : (d.setAttr k' v).getStr k = d.getStr k := by
  have hb : (k == k') = false := beq_eq_false_iff_ne.mpr (Ne.symm h)
  simp [ResourceData.setAttr, ResourceData.getStr, List.lookup, hb]

theorem getInt_setAttr_self (d : ResourceData) (k : String) (v : GoValue) :
    (d.setAttr k v).getInt k = v.asInt := by
  simp [ResourceData.setAttr, ResourceData.getInt, List.lookup]

theorem getInt_setAttr_ne (d : ResourceData) {k k' : String} (v : GoValue)
    (h : k' ≠ k) : (d.setAttr k' v).getInt k = d.getInt k := by
  have hb : (k == k') = false := beq_eq_false_iff_ne.mpr (Ne.symm h)
  simp [ResourceData.setAttr, ResourceData.getInt, List.lookup, hb]

theorem getOk_setAttr_ne (d : ResourceData) {k k' : String} (v : GoValue)
    (h : k' ≠ k) : (d.setAttr k' v).getOk k = d.getOk k := by
  have hb : (k == k') = false := beq_eq_false_iff_ne.mpr (Ne.symm h)
  simp [ResourceData.setAttr, ResourceData.getOk, List.lookup, hb]

theorem getStr_setId (d : ResourceData) (i : String) (k : String) :
    (d.setId i).getStr k = d.getStr k := rfl

theorem getInt_setId (d : ResourceData) (i : String) (k : String) :
    (d.setId i).getInt k = d.getInt k := rfl

theorem getOk_setId (d : ResourceData) (i : String) (k : String) :
    (d.setId i).getOk k = d.getOk k := rfl

/-! ## Theorems -/

/-- C3: the `afk_timeout` validation function accepts a value if and only
if it is one of 60, 300, 900, 1800, 3600; in particular it returns an
error for input 120 and returns no error for input 300. -/
theorem afk_timeout_validation_iff :
    (∀ v : Int, (afkTimeoutValidate v).2 = [] ↔ v ∈ ([60, 300, 900, 1800, 3600] : List Int)) ∧
      (afkTimeoutValidate 120).2 ≠ [] ∧ (afkTimeoutValidate 300).2 = [] := by
  refine ⟨fun v => ?_, by decide, by decide⟩
  simp only [afkTimeoutValidate, repoContains]
  split <;> rename_i h <;> simp_all <;> tauto

/-- C4: the `verification_level` validation function returns an error if
and only if the value is outside the inclusive range 0 to 4; for every
value in [0, 4] it returns no errors. -/
theorem verification_level_validation_iff :
    ∀ v : Int, (verificationLevelValidate v).2 = [] ↔ 0 ≤ v ∧ v ≤ 4 := by
  intro v
  simp only [verificationLevelValidate]
  split <;> rename_i h <;> simp_all <;> omega

/-- C8: `resourceServerManagedDelete` is a no-op — no API call, unchanged
state and data, empty diagnostics — while `resourceServerDelete` issues
exactly one guild-delete API call. -/
theorem managed_delete_noop_delete_single_call :
    (∀ (σ : Type) (cl : Client σ) (d : ResourceData) (s : σ),
        resourceServerManagedDelete cl d s = ⟨[], s, [], d⟩) ∧
      (∀ (σ : Type) (cl : Client σ) (d : ResourceData) (s : σ),
        ∃ out, (resourceServerDelete cl d s).trace = [(.deleteGuild (getId d.id), out)]) := by
  refine ⟨fun σ cl d s => rfl, fun σ cl d s => ?_⟩
  cases h : cl.deleteGuild (getId d.id) s with
  | error e => exact ⟨some e, by simp [resourceServerDelete, h]⟩
  | ok s1 => exact ⟨none, by simp [resourceServerDelete, h]⟩

/-- C10: `resourceServerManagedCreate` performs no API call; when
`server_id` is unset or not a string it returns one error diagnostic and
leaves the resource data (hence its id) unchanged; otherwise it sets the
resource id to exactly the given `server_id` string with empty
diagnostics. -/
theorem managed_create_no_api :
    ∀ (σ : Type) (cl : Client σ) (d : ResourceData) (s : σ),
      (resourceServerManagedCreate cl d s).trace = [] ∧
      (resourceServerManagedCreate cl d s).state = s ∧
      (match d.getOk "server_id" with
       | some (.vStr serverId) =>
           (resourceServerManagedCreate cl d s).diags = [] ∧
           (resourceServerManagedCreate cl d s).data = d.setId serverId
       | some (.vInt _) =>
           (resourceServerManagedCreate cl d s).diags = errorf "Error: server_id must be a string" ∧
           (resourceServerManagedCreate cl d s).data = d
       | none =>
           (resourceServerManagedCreate cl d s).diags = errorf "Error: server_id must be set" ∧
           (resourceServerManagedCreate cl d s).data = d) := by
  intro σ cl d s
  rcases h : d.getOk "server_id" with _ | v
  · simp [resourceServerManagedCreate, h]
  · cases v <;> simp [resourceServerManagedCreate, h]

/-- A guild used to instantiate hypotheses of the general theorems. -/
def sampleGuild : Guild :=
  { id := 99, name := "general", region := "us-west", icon := "iconhash",
    splash := "splashhash", verificationLevel := 1,
    defaultMessageNotifications := 0, explicitContentFilter := 2,
    afkChannelID := 7, afkTimeout := 300, ownerID := 5 }

/-- A client whose calls all succeed, answering guild queries with `g`. -/
def constClient (g : Guild) : Client Unit :=
  { createGuild := fun _ _ s => .ok (g, s)
    getChannels := fun _ s => .ok ([], s)
    deleteChannel := fun _ s => .ok s
    updateGuild := fun _ _ s => .ok (g, s)
    guildUpdateExec := fun _ _ s => .ok (g, s)
    getGuild := fun _ s => .ok (g, s)
    deleteGuild := fun _ s => .ok s }

/-- C9: `resourceServerRead` never clears `afk_channel_id` or `owner_id`:
`afk_channel_id` is written only when the remote AFK channel id is
non-zero, `owner_id` is overwritten only when the current state's
`owner_id` is non-empty and the remote owner id is non-zero; otherwise
those fields keep their previous values. -/
theorem read_preserves_afk_owner {σ : Type} (cl : Client σ) (d : ResourceData)
    (s : σ) (server : Guild) (s1 : σ)
    (hok : cl.getGuild (getId d.id) s = .ok (server, s1)) :
    ((resourceServerRead cl d s).data.getStr "afk_channel_id"
        = if server.afkChannelID = 0 then d.getStr "afk_channel_id"
          else Snowflake.toStr server.afkChannelID) ∧
      ((resourceServerRead cl d s).data.getStr "owner_id"
        = if d.getStr "owner_id" ≠ "" ∧ server.ownerID ≠ 0
          then Snowflake.toStr server.ownerID
          else d.getStr "owner_id") := by
  by_cases hz : server.afkChannelID = 0 <;>
    by_cases hw : d.getStr "owner_id" = "" <;>
      by_cases ho : server.ownerID = 0 <;>
        simp [resourceServerRead, hok, Snowflake.isZero, hz, hw, ho,
          getStr_setAttr_ne, getStr_setAttr_self, GoValue.asStr]

/-- Witness for C9 at a concrete client, guild and resource data. -/
def sampleReadData : ResourceData :=
  { id := "99", attrs := [("owner_id", .vStr "5")], hasChangeKeys := [] }

theorem read_preserves_afk_owner_witness :
    (constClient sampleGuild).getGuild (getId sampleReadData.id) ()
        = .ok (sampleGuild, ()) ∧
      (((resourceServerRead (constClient sampleGuild) sampleReadData ()).data.getStr "afk_channel_id"
          = if sampleGuild.afkChannelID = 0 then sampleReadData.getStr "afk_channel_id"
            else Snowflake.toStr sampleGuild.afkChannelID) ∧
        ((resourceServerRead (constClient sampleGuild) sampleReadData ()).data.getStr "owner_id"
          = if sampleReadData.getStr "owner_id" ≠ "" ∧ sampleGuild.ownerID ≠ 0
            then Snowflake.toStr sampleGuild.ownerID
            else sampleReadData.getStr "owner_id")) :=
  ⟨rfl, read_preserves_afk_owner (constClient sampleGuild) sampleReadData ()
    sampleGuild () rfl⟩

/-! ## C2: when the update handler executes the builder -/

/-- The attributes checked by the `HasChange` sequence of
`resourceServerUpdate`, in source order. -/
def trackedKeys : List String :=
  ["icon_url", "icon_data_uri", "splash_url", "splash_data_uri",
   "afk_channel_id", "afk_timeout", "owner_id", "verification_level",
   "default_message_notifications", "explicit_content_filter", "name",
   "region"]

/-- Whether any tracked attribute has changed. -/
def anyTrackedChange (d : ResourceData) : Bool := trackedKeys.any d.hasChange

theorem applySteps_flag (steps : List UpdateStep) (be : UpdateBuilder × Bool) :
    (applySteps steps be).2 = (be.2 || (steps.map Prod.fst).any id) := by
  induction steps generalizing be with
  | nil => simp [applySteps]
  | cons st rest ih =>
    rcases st with ⟨c, f⟩
    cases c <;> simp [applySteps, ih, Bool.or_assoc]

theorem buildServerUpdate_flag (env : Env) (d : ResourceData) (server : Guild) :
    (buildServerUpdate env d server).2
      = (anyTrackedChange d || (d.getOk "owner_id").isSome) := by
  have hsteps : ((updateSteps env d).map Prod.fst).any id = anyTrackedChange d := by
    simp [updateSteps, anyTrackedChange, trackedKeys, List.any_cons]
  simp only [buildServerUpdate]
  rcases h : d.getOk "owner_id" with _ | v <;>
    cases hc : d.hasChange "owner_id" <;>
      simp [applySteps_flag, hsteps, h, hc, anyTrackedChange, trackedKeys,
        List.any_cons]

/-- C2 (amended): `resourceServerUpdate` issues the builder `Execute`
call if and only if at least one tracked attribute has changed **or**
`owner_id` is set (non-empty) in the resource data; when neither holds,
only the initial guild fetch is issued and the remote state is left
untouched. -/
theorem update_execute_iff_changed_or_owner_set {σ : Type} (cl : Client σ)
    (env : Env) (d : ResourceData) (s : σ) (server : Guild) (s1 : σ)
    (hok : cl.getGuild (getId d.id) s = .ok (server, s1)) :
    ((∃ b out, (ApiCall.guildUpdateExec server.id b, out)
        ∈ (resourceServerUpdate cl env d s).trace)
      ↔ (anyTrackedChange d = true ∨ (d.getOk "owner_id").isSome = true)) ∧
    (¬(anyTrackedChange d = true ∨ (d.getOk "owner_id").isSome = true) →
      (resourceServerUpdate cl env d s).trace = [(.getGuild (getId d.id), none)] ∧
        (resourceServerUpdate cl env d s).state = s1) := by
  have hflag := buildServerUpdate_flag env d server
  by_cases hcond : anyTrackedChange d = true ∨ (d.getOk "owner_id").isSome = true
  · have hf : (buildServerUpdate env d server).2 = true := by
      rw [hflag]
      rcases hcond with h | h <;> simp [h]
    refine ⟨⟨fun _ => hcond, fun _ => ?_⟩, fun hn => absurd hcond hn⟩
    cases hexec : cl.guildUpdateExec server.id (buildServerUpdate env d server).1 s1 with
    | error e =>
      exact ⟨(buildServerUpdate env d server).1, some e,
        by simp [resourceServerUpdate, hok, hf, hexec]⟩
    | ok gs =>
      exact ⟨(buildServerUpdate env d server).1, none,
        by rcases gs with ⟨g2, s2⟩; simp [resourceServerUpdate, hok, hf, hexec]⟩
  · have hf : (buildServerUpdate env d server).2 = false := by
      rw [hflag]
      push_neg at hcond
      simp [hcond.1, hcond.2]
    constructor
    · constructor
      · intro hmem
        exfalso
        rcases hmem with ⟨b, out, hmem⟩
        simp [resourceServerUpdate, hok, hf] at hmem
      · intro h
        exact absurd h hcond
    · intro _
      simp [resourceServerUpdate, hok, hf]

/-- Identity environment used for concrete runs. -/
def envId : Env := ⟨fun s => s⟩

/-- A concrete resource data with no changed attribute but a set
`owner_id`. -/
def noChangeOwnerData : ResourceData :=
  { id := "99", attrs := [("owner_id", .vStr "5")], hasChangeKeys := [] }

/-- Counterexample to C2 as stated: with no attribute changed at all, the
update handler still issues the builder `Execute` call, because
`owner_id` is set in state. -/
theorem update_executes_without_changes_cex :
    anyTrackedChange noChangeOwnerData = false ∧
      (ApiCall.guildUpdateExec sampleGuild.id
          (UpdateBuilder.mk0.setOwnerID sampleGuild.ownerID), (none : Option String))
        ∈ (resourceServerUpdate (constClient sampleGuild) envId
            noChangeOwnerData ()).trace :=
  ⟨rfl, by decide⟩

/-- Witness for C2's amended theorem at a concrete client and data. -/
theorem update_execute_iff_changed_or_owner_set_witness :
    (constClient sampleGuild).getGuild (getId noChangeOwnerData.id) ()
        = .ok (sampleGuild, ()) ∧
      (((∃ b out, (ApiCall.guildUpdateExec sampleGuild.id b, out)
          ∈ (resourceServerUpdate (constClient sampleGuild) envId
              noChangeOwnerData ()).trace)
        ↔ (anyTrackedChange noChangeOwnerData = true ∨
            (noChangeOwnerData.getOk "owner_id").isSome = true)) ∧
      (¬(anyTrackedChange noChangeOwnerData = true ∨
            (noChangeOwnerData.getOk "owner_id").isSome = true) →
        (resourceServerUpdate (constClient sampleGuild) envId
            noChangeOwnerData ()).trace
          = [(.getGuild (getId noChangeOwnerData.id), none)] ∧
        (resourceServerUpdate (constClient sampleGuild) envId
            noChangeOwnerData ()).state = ())) :=
  ⟨rfl, update_execute_iff_changed_or_owner_set (constClient sampleGuild) envId
    noChangeOwnerData () sampleGuild () rfl⟩

/-! ## C1: the splash branches of the update handler -/

/-- A concrete diff where only `splash_url` changed. -/
def splashChangeData : ResourceData :=
  { id := "99",
    attrs := [("splash_url", .vStr "https://example.com/s.png")],
    hasChangeKeys := ["splash_url"] }

/-- C1 evaluated at its failing input: when only `splash_url` has changed,
the builder that `resourceServerUpdate` executes has its **icon** field
set to the fetched splash image while its splash field is not set at all
(the source's `splash_url` / `splash_data_uri` branches call `SetIcon`). -/
theorem splash_change_sets_icon_not_splash :
    splashChangeData.hasChangeKeys = ["splash_url"] ∧
      (buildServerUpdate envId splashChangeData sampleGuild).1.icon
        = some (envId.fromRemote (splashChangeData.getStr "splash_url")) ∧
      (buildServerUpdate envId splashChangeData sampleGuild).1.splash = none ∧
      (ApiCall.guildUpdateExec sampleGuild.id
          (buildServerUpdate envId splashChangeData sampleGuild).1, none)
        ∈ (resourceServerUpdate (constClient sampleGuild) envId
            splashChangeData ()).trace := by
  refine ⟨rfl, by decide, by decide, by decide⟩

/-! ## C7: error handling shape of the four CRUD handlers -/

/-- An operation result as the error-handling design describes it: either
every call succeeded and no diagnostic was returned, or the trace ends at
the first failing call — every earlier call succeeded, so the failed call
was never tried before, and nothing runs after it — and the diagnostics
are a single message wrapping that call's error string. -/
def ErrShape {σ : Type} (r : OpResult σ) : Prop :=
  (r.diags = [] ∧ ∀ en ∈ r.trace, en.2 = none) ∨
    (∃ pre c e pfx, r.trace = pre ++ [(c, some e)] ∧
      (∀ en ∈ pre, en.2 = none) ∧ r.diags = [⟨pfx ++ e⟩])

theorem deleteChannels_shape {σ : Type} (cl : Client σ) (chs : List Snowflake)
    (s : σ) :
    ((deleteChannels cl chs s).2.2 = none ∧
        ∀ en ∈ (deleteChannels cl chs s).1, en.2 = none) ∨
      (∃ pre c e, (deleteChannels cl chs s).1 = pre ++ [(.deleteChannel c, some e)] ∧
        (∀ en ∈ pre, en.2 = none) ∧ (deleteChannels cl chs s).2.2 = some e) := by
  induction chs generalizing s with
  | nil => left; simp [deleteChannels]
  | cons c rest ih =>
    cases hdel : cl.deleteChannel c s with
    | error e =>
      right
      exact ⟨[], c, e, by simp [deleteChannels, hdel], by simp,
        by simp [deleteChannels, hdel]⟩
    | ok s1 =>
      rcases ih s1 with ⟨hn, hall⟩ | ⟨pre, c2, e, htr, hpre, herr⟩
      · left
        refine ⟨by simp [deleteChannels, hdel, hn], fun en hen => ?_⟩
        simp only [deleteChannels, hdel, List.mem_cons] at hen
        rcases hen with rfl | hen
        · rfl
        · exact hall en hen
      · right
        refine ⟨(.deleteChannel c, none) :: pre, c2, e, ?_, fun en hen => ?_, ?_⟩
        · simp [deleteChannels, hdel, htr]
        · rcases List.mem_cons.mp hen with rfl | hen
          · rfl
          · exact hpre en hen
        · simp [deleteChannels, hdel, herr]

theorem createFinish_shape {σ : Type} (cl : Client σ) (d : ResourceData)
    (server : Guild) (trAcc : List TraceEntry) (s : σ)
    (hacc : ∀ en ∈ trAcc, en.2 = none) :
    ErrShape (createFinish cl d server trAcc s) := by
  rcases hop : createOwnerPatch d server with _ | newOwnerId
  · left
    constructor
    · simp [createFinish, hop, createSetState]
    · intro en hen
      simp only [createFinish, hop, createSetState] at hen
      exact hacc en hen
  · cases hupd : cl.updateGuild server.id { ownerID := some newOwnerId } s with
    | error e =>
      right
      refine ⟨trAcc, .updateGuild server.id { ownerID := some newOwnerId }, e,
        "Failed to edit server: ", ?_, hacc, ?_⟩ <;>
        simp [createFinish, hop, hupd, errorf]
    | ok gs =>
      left
      rcases gs with ⟨g2, s2⟩
      constructor
      · simp [createFinish, hop, hupd, createSetState]
      · intro en hen
        simp only [createFinish, hop, hupd, createSetState, List.mem_append,
          List.mem_singleton] at hen
        rcases hen with hen | rfl
        · exact hacc en hen
        · rfl

/-- C7: in every CRUD handler, an API error produces exactly one
diagnostic wrapping the error string, the failed call is not retried, and
no further API call is issued after the failure. -/
theorem api_error_single_diag_no_retry :
    ∀ (σ : Type) (cl : Client σ) (env : Env) (d : ResourceData) (s : σ),
      ErrShape (resourceServerCreate cl env d s) ∧
        ErrShape (resourceServerRead cl d s) ∧
        ErrShape (resourceServerUpdate cl env d s) ∧
        ErrShape (resourceServerDelete cl d s) := by
  intro σ cl env d s
  refine ⟨?_, ?_, ?_, ?_⟩
  · -- create
    cases hcg : cl.createGuild (d.getStr "name") (createParams env d) s with
    | error e =>
      right
      exact ⟨[], .createGuild (d.getStr "name") (createParams env d), e,
        "Failed to create server: ",
        by simp [resourceServerCreate, hcg], by simp,
        by simp [resourceServerCreate, hcg, errorf]⟩
    | ok gs =>
      rcases gs with ⟨server, s1⟩
      cases hgc : cl.getChannels server.id s1 with
      | error e =>
        right
        exact ⟨[(.createGuild (d.getStr "name") (createParams env d), none)],
          .getChannels server.id, e,
          "Failed to fetch channels for new server: ",
          by simp [resourceServerCreate, hcg, hgc], by simp,
          by simp [resourceServerCreate, hcg, hgc, errorf]⟩
      | ok chs2 =>
        rcases chs2 with ⟨channels, s2⟩
        rcases hdc : deleteChannels cl channels s2 with ⟨tr, s3, oerr⟩
        have hsh := deleteChannels_shape cl channels s2
        rw [hdc] at hsh
        rcases oerr with _ | e
        · -- loop succeeded
          rcases hsh with ⟨_, hall⟩ | ⟨_, _, _, _, _, hcontra⟩
          on_goal 2 => simp at hcontra
          have hpre : ∀ en ∈ ([(ApiCall.createGuild (d.getStr "name") (createParams env d), (none : Option String)),
              (ApiCall.getChannels server.id, none)] ++ tr), en.2 = none := by
            intro en hen
            rcases List.mem_append.mp hen with hen | hen
            · rcases List.mem_cons.mp hen with rfl | hen
              · rfl
              · rcases List.mem_cons.mp hen with rfl | hen
                · rfl
                · simp at hen
            · exact hall en hen
          by_cases hedit : createEdit env d
          · cases hupd : cl.updateGuild server.id
                { splash := some (createSplash env d),
                  afkChannelID := some (createAfkChannel d server) } s3 with
            | error e =>
              right
              refine ⟨[(ApiCall.createGuild (d.getStr "name") (createParams env d), none),
                  (ApiCall.getChannels server.id, none)] ++ tr,
                .updateGuild server.id
                  { splash := some (createSplash env d),
                    afkChannelID := some (createAfkChannel d server) }, e,
                "Failed to edit server: ", ?_, hpre, ?_⟩ <;>
                simp [resourceServerCreate, hcg, hgc, hdc, hedit, hupd, errorf]
            | ok gs4 =>
              rcases gs4 with ⟨g4, s4⟩
              cases hexec : cl.guildUpdateExec server.id
                  (UpdateBuilder.mk0.setAfkTimeout ((createAfkTimeout d server : Int))) s4 with
              | error e =>
                right
                refine ⟨[(ApiCall.createGuild (d.getStr "name") (createParams env d), none),
                    (ApiCall.getChannels server.id, none)] ++ tr ++
                    [(ApiCall.updateGuild server.id
                        { splash := some (createSplash env d),
                          afkChannelID := some (createAfkChannel d server) }, none)],
                  .guildUpdateExec server.id
                    (UpdateBuilder.mk0.setAfkTimeout ((createAfkTimeout d server : Int))), e,
                  "Failed to edit server: ", ?_, ?_, ?_⟩
                · simp [resourceServerCreate, hcg, hgc, hdc, hedit, hupd, hexec]
                · intro en hen
                  rcases List.mem_append.mp hen with hen | hen
                  · exact hpre en hen
                  · rcases List.mem_singleton.mp hen with rfl
                    rfl
                · simp [resourceServerCreate, hcg, hgc, hdc, hedit, hupd, hexec, errorf]
              | ok gs5 =>
                rcases gs5 with ⟨g5, s5⟩
                have hres : resourceServerCreate cl env d s
                    = createFinish cl d server
                      ([(ApiCall.createGuild (d.getStr "name") (createParams env d), none),
                        (ApiCall.getChannels server.id, none)] ++ tr ++
                        [(ApiCall.updateGuild server.id
                            { splash := some (createSplash env d),
                              afkChannelID := some (createAfkChannel d server) }, none),
                         (ApiCall.guildUpdateExec server.id
                            (UpdateBuilder.mk0.setAfkTimeout ((createAfkTimeout d server : Int))), none)]) s5 := by
                  simp [resourceServerCreate, hcg, hgc, hdc, hedit, hupd, hexec]
                rw [hres]
                apply createFinish_shape
                intro en hen
                rcases List.mem_append.mp hen with hen | hen
                · exact hpre en hen
                · rcases List.mem_cons.mp hen with rfl | hen
                  · rfl
                  · rcases List.mem_singleton.mp hen with rfl
                    rfl
          · have hres : resourceServerCreate cl env d s
                = createFinish cl d server
                  ([(ApiCall.createGuild (d.getStr "name") (createParams env d), none),
                    (ApiCall.getChannels server.id, none)] ++ tr) s3 := by
              simp [resourceServerCreate, hcg, hgc, hdc, hedit]
            rw [hres]
            exact createFinish_shape cl d server _ s3 hpre
        · -- loop failed
          rcases hsh with ⟨hcontra, _⟩ | ⟨pre, c2, e2, htr, hpreloop, herr⟩
          on_goal 1 => simp at hcontra
          right
          refine ⟨[(ApiCall.createGuild (d.getStr "name") (createParams env d), none),
              (ApiCall.getChannels server.id, none)] ++ pre, .deleteChannel c2, e2,
            "Failed to delete channel for new server: ", ?_, ?_, ?_⟩
          · rw [List.append_assoc]
            rw [← htr]
            simp [resourceServerCreate, hcg, hgc, hdc]
          · intro en hen
            rcases List.mem_append.mp hen with hen | hen
            · rcases List.mem_cons.mp hen with rfl | hen
              · rfl
              · rcases List.mem_cons.mp hen with rfl | hen
                · rfl
                · simp at hen
            · exact hpreloop en hen
          · have he : e = e2 := Option.some_inj.mp herr
            simp [resourceServerCreate, hcg, hgc, hdc, errorf, he]
  · -- read
    cases hg : cl.getGuild (getId d.id) s with
    | error e =>
      right
      exact ⟨[], .getGuild (getId d.id), e, "Error fetching server: ",
        by simp [resourceServerRead, hg], by simp,
        by simp [resourceServerRead, hg, errorf]⟩
    | ok gs =>
      rcases gs with ⟨server, s1⟩
      left
      constructor
      · simp [resourceServerRead, hg]
      · intro en hen
        simp only [resourceServerRead, hg] at hen
        simp at hen
        rcases hen with ⟨rfl, rfl⟩
        rfl
  · -- update
    cases hg : cl.getGuild (getId d.id) s with
    | error e =>
      right
      exact ⟨[], .getGuild (getId d.id), e, "Error fetching server: ",
        by simp [resourceServerUpdate, hg], by simp,
        by simp [resourceServerUpdate, hg, errorf]⟩
    | ok gs =>
      rcases gs with ⟨server, s1⟩
      by_cases hf : (buildServerUpdate env d server).2
      · cases hexec : cl.guildUpdateExec server.id (buildServerUpdate env d server).1 s1 with
        | error e =>
          right
          exact ⟨[(.getGuild (getId d.id), none)],
            .guildUpdateExec server.id (buildServerUpdate env d server).1, e,
            "Failed to edit server: ",
            by simp [resourceServerUpdate, hg, hf, hexec], by simp,
            by simp [resourceServerUpdate, hg, hf, hexec, errorf]⟩
        | ok gs2 =>
          rcases gs2 with ⟨g2, s2⟩
          left
          constructor
          · simp [resourceServerUpdate, hg, hf, hexec]
          · intro en hen
            simp only [resourceServerUpdate, hg, hf, hexec] at hen
            simp at hen
            rcases hen with ⟨rfl, rfl⟩ | ⟨rfl, rfl⟩ <;> rfl
      · left
        constructor
        · simp [resourceServerUpdate, hg, hf]
        · intro en hen
          simp only [resourceServerUpdate, hg, hf] at hen
          simp at hen
          rcases hen with ⟨rfl, rfl⟩
          rfl
  · -- delete
    cases hdel : cl.deleteGuild (getId d.id) s with
    | error e =>
      right
      exact ⟨[], .deleteGuild (getId d.id), e, "Failed to delete server: ",
        by simp [resourceServerDelete, hdel], by simp,
        by simp [resourceServerDelete, hdel, errorf]⟩
    | ok s1 =>
      left
      constructor
      · simp [resourceServerDelete, hdel]
      · intro en hen
        simp only [resourceServerDelete, hdel] at hen
        simp at hen
        rcases hen with ⟨rfl, rfl⟩
        rfl

/-! ## C5: order of the API calls of `resourceServerCreate` -/

theorem deleteChannels_ok_trace {σ : Type} (cl : Client σ) (chs : List Snowflake)
    (s : σ) (h : (deleteChannels cl chs s).2.2 = none) :
    (deleteChannels cl chs s).1
      = chs.map (fun c => ((.deleteChannel c : ApiCall), (none : Option String))) := by
  induction chs generalizing s with
  | nil => simp [deleteChannels]
  | cons c rest ih =>
    cases hdel : cl.deleteChannel c s with
    | error e =>
      exfalso
      rw [deleteChannels, hdel] at h
      simp at h
    | ok s1 =>
      rw [deleteChannels, hdel] at h ⊢
      simp only [List.map_cons, List.cons.injEq]
      exact ⟨trivial, ih s1 h⟩

theorem createSplash_nonempty (env : Env) (d : ResourceData)
    (h : createSplash env d ≠ "") :
    (d.getOk "splash_url").isSome ∨ (d.getOk "splash_data_uri").isSome := by
  rcases h1 : d.getOk "splash_url" with _ | v
  · rcases h2 : d.getOk "splash_data_uri" with _ | w
    · exact absurd (by simp [createSplash, h1, h2]) h
    · right; simp [h2]
  · left; simp [h1]

/-- C5: when `resourceServerCreate` runs without error, its API calls are,
in order: one guild-create call, one channel fetch, one delete per fetched
channel, then — only when a splash input, `afk_channel_id` or
`afk_timeout` is configured — the splash/AFK patch and the AFK-timeout
builder call, then — only for a configured `owner_id` differing from the
new guild's owner — the owner patch. -/
theorem create_call_order {σ : Type} (cl : Client σ) (env : Env)
    (d : ResourceData) (s : σ)
    (hsucc : (resourceServerCreate cl env d s).diags = []) :
    ∃ server s1 channels s2,
      cl.createGuild (d.getStr "name") (createParams env d) s = .ok (server, s1) ∧
      cl.getChannels server.id s1 = .ok (channels, s2) ∧
      (resourceServerCreate cl env d s).trace
        = [(.createGuild (d.getStr "name") (createParams env d), none),
           (.getChannels server.id, none)]
          ++ channels.map (fun c => ((.deleteChannel c : ApiCall), (none : Option String)))
          ++ (if createEdit env d then
                [(.updateGuild server.id
                    { splash := some (createSplash env d),
                      afkChannelID := some (createAfkChannel d server) }, none),
                 (.guildUpdateExec server.id
                    (UpdateBuilder.mk0.setAfkTimeout ((createAfkTimeout d server : Int))), none)]
              else [])
          ++ (match createOwnerPatch d server with
              | some newOwnerId =>
                  [(.updateGuild server.id { ownerID := some newOwnerId }, none)]
              | none => []) ∧
      (createEdit env d = true →
        (d.getOk "splash_url").isSome ∨ (d.getOk "splash_data_uri").isSome ∨
          (d.getOk "afk_channel_id").isSome ∨ (d.getOk "afk_timeout").isSome) := by
  cases hcg : cl.createGuild (d.getStr "name") (createParams env d) s with
  | error e => exact absurd hsucc (by simp [resourceServerCreate, hcg, errorf])
  | ok gs =>
  rcases gs with ⟨server, s1⟩
  cases hgc : cl.getChannels server.id s1 with
  | error e => exact absurd hsucc (by simp [resourceServerCreate, hcg, hgc, errorf])
  | ok chs2 =>
  rcases chs2 with ⟨channels, s2⟩
  refine ⟨server, s1, channels, s2, rfl, hgc, ?_, fun hed => ?_⟩
  · rcases hdc : deleteChannels cl channels s2 with ⟨tr, s3, oerr⟩
    rcases oerr with _ | e
    · have htr : tr = channels.map
          (fun c => ((.deleteChannel c : ApiCall), (none : Option String))) := by
        have := deleteChannels_ok_trace cl channels s2 (by rw [hdc])
        rwa [hdc] at this
      subst htr
      by_cases hedit : createEdit env d
      · cases hupd : cl.updateGuild server.id
            { splash := some (createSplash env d),
              afkChannelID := some (createAfkChannel d server) } s3 with
        | error e =>
          exact absurd hsucc
            (by simp [resourceServerCreate, hcg, hgc, hdc, hedit, hupd, errorf])
        | ok gs4 =>
        rcases gs4 with ⟨g4, s4⟩
        cases hexec : cl.guildUpdateExec server.id
            (UpdateBuilder.mk0.setAfkTimeout ((createAfkTimeout d server : Int))) s4 with
        | error e =>
          exact absurd hsucc
            (by simp [resourceServerCreate, hcg, hgc, hdc, hedit, hupd, hexec, errorf])
        | ok gs5 =>
        rcases gs5 with ⟨g5, s5⟩
        rcases hop : createOwnerPatch d server with _ | newOwnerId
        · simp [resourceServerCreate, hcg, hgc, hdc, hedit, hupd, hexec,
            createFinish, hop, createSetState]
        · cases hupo : cl.updateGuild server.id { ownerID := some newOwnerId } s5 with
          | error e =>
            exact absurd hsucc
              (by simp [resourceServerCreate, hcg, hgc, hdc, hedit, hupd, hexec,
                createFinish, hop, hupo, errorf])
          | ok gs6 =>
            rcases gs6 with ⟨g6, s6⟩
            simp [resourceServerCreate, hcg, hgc, hdc, hedit, hupd, hexec,
              createFinish, hop, hupo, createSetState]
      · rcases hop : createOwnerPatch d server with _ | newOwnerId
        · simp [resourceServerCreate, hcg, hgc, hdc, hedit,
            createFinish, hop, createSetState]
        · cases hupo : cl.updateGuild server.id { ownerID := some newOwnerId } s3 with
          | error e =>
            exact absurd hsucc
              (by simp [resourceServerCreate, hcg, hgc, hdc, hedit,
                createFinish, hop, hupo, errorf])
          | ok gs6 =>
            rcases gs6 with ⟨g6, s6⟩
            simp [resourceServerCreate, hcg, hgc, hdc, hedit,
              createFinish, hop, hupo, createSetState]
    · exact absurd hsucc (by simp [resourceServerCreate, hcg, hgc, hdc, errorf])
  · simp only [createEdit, Bool.or_eq_true] at hed
    rcases hed with (hs | h) | h
    · rcases createSplash_nonempty env d (by simpa using hs) with h | h
      · exact Or.inl h
      · exact Or.inr (Or.inl h)
    · exact Or.inr (Or.inr (Or.inl h))
    · exact Or.inr (Or.inr (Or.inr h))

/-- Witness data for C5: a minimal configuration with only a name. -/
def minimalCreateData : ResourceData :=
  { id := "", attrs := [("name", .vStr "srv")], hasChangeKeys := [] }

theorem create_call_order_witness :
    (resourceServerCreate (constClient sampleGuild) envId minimalCreateData ()).diags = [] ∧
      (∃ server s1 channels s2,
        (constClient sampleGuild).createGuild (minimalCreateData.getStr "name")
            (createParams envId minimalCreateData) () = .ok (server, s1) ∧
        (constClient sampleGuild).getChannels server.id s1 = .ok (channels, s2) ∧
        (resourceServerCreate (constClient sampleGuild) envId minimalCreateData ()).trace
          = [(.createGuild (minimalCreateData.getStr "name")
                (createParams envId minimalCreateData), none),
             (.getChannels server.id, none)]
            ++ channels.map (fun c => ((.deleteChannel c : ApiCall), (none : Option String)))
            ++ (if createEdit envId minimalCreateData then
                  [(.updateGuild server.id
                      { splash := some (createSplash envId minimalCreateData),
                        afkChannelID := some (createAfkChannel minimalCreateData server) }, none),
                   (.guildUpdateExec server.id
                      (UpdateBuilder.mk0.setAfkTimeout
                        ((createAfkTimeout minimalCreateData server : Int))), none)]
                else [])
            ++ (match createOwnerPatch minimalCreateData server with
                | some newOwnerId =>
                    [(.updateGuild server.id { ownerID := some newOwnerId }, none)]
                | none => []) ∧
        (createEdit envId minimalCreateData = true →
          (minimalCreateData.getOk "splash_url").isSome ∨
            (minimalCreateData.getOk "splash_data_uri").isSome ∨
            (minimalCreateData.getOk "afk_channel_id").isSome ∨
            (minimalCreateData.getOk "afk_timeout").isSome)) :=
  ⟨by decide, create_call_order (constClient sampleGuild) envId minimalCreateData ()
    (by decide)⟩

/-! ## C6: a mock Discord API and the create/read round trip -/

/-- The remote state of the mock API: at most one guild, and its channel
list. -/
structure MockState where
  guild : Option Guild
  channels : List Snowflake
deriving DecidableEq

/-- Applying a guild PATCH (`disgord.UpdateGuild`) to the stored guild. -/
def applyUpdateParams (g : Guild) (u : UpdateGuildParams) : Guild :=
  { g with
      splash := u.splash.getD g.splash
      afkChannelID := u.afkChannelID.getD g.afkChannelID
      ownerID := u.ownerID.getD g.ownerID }

/-- Applying an executed update builder to the stored guild. -/
def applyBuilder (g : Guild) (b : UpdateBuilder) : Guild :=
  { g with
      icon := b.icon.getD g.icon
      splash := b.splash.getD g.splash
      afkChannelID := b.afkChannelID.getD g.afkChannelID
      afkTimeout := (b.afkTimeout.map Int.toNat).getD g.afkTimeout
      ownerID := b.ownerID.getD g.ownerID
      verificationLevel := b.verificationLevel.getD g.verificationLevel
      defaultMessageNotifications := b.defaultMessageNotifications.getD g.defaultMessageNotifications
      explicitContentFilter := b.explicitContentFilter.getD g.explicitContentFilter
      name := b.name.getD g.name
      region := b.region.getD g.region }

/-- Mock constants: the id given to a created guild, the bot account that
becomes its first owner, Discord's defaults for a fresh guild. -/
def mockGuildID : Snowflake := 99

def mockBotID : Snowflake := 1

def mockDefaultAfkTimeout : Nat := 300

def mockDefaultChannels : List Snowflake := [11, 12]

/-- The guild the mock allocates on a create call: requested fields stored
verbatim, server-assigned fields set to the mock defaults. -/
def mockNewGuild (name : String) (p : CreateGuildParams) : Guild :=
  { id := mockGuildID, name := name, region := p.region, icon := p.icon,
    splash := "", verificationLevel := p.verificationLvl,
    defaultMessageNotifications := p.defaultMsgNotifications,
    explicitContentFilter := p.explicitContentFilter,
    afkChannelID := 0, afkTimeout := mockDefaultAfkTimeout,
    ownerID := mockBotID }

/-- A mock Discord API: one guild, faithful storage, honest reads. -/
def mockClient : Client MockState :=
  { createGuild := fun name p _s =>
      .ok (mockNewGuild name p, ⟨some (mockNewGuild name p), mockDefaultChannels⟩)
    getChannels := fun gid s =>
      match s.guild with
      | some g => if g.id == gid then .ok (s.channels, s) else .error "unknown guild"
      | none => .error "unknown guild"
    deleteChannel := fun c s => .ok ⟨s.guild, s.channels.erase c⟩
    updateGuild := fun gid u s =>
      match s.guild with
      | some g =>
        if g.id == gid then
          .ok (applyUpdateParams g u, ⟨some (applyUpdateParams g u), s.channels⟩)
        else .error "unknown guild"
      | none => .error "unknown guild"
    guildUpdateExec := fun gid b s =>
      match s.guild with
      | some g =>
        if g.id == gid then
          .ok (applyBuilder g b, ⟨some (applyBuilder g b), s.channels⟩)
        else .error "unknown guild"
      | none => .error "unknown guild"
    getGuild := fun gid s =>
      match s.guild with
      | some g => if g.id == gid then .ok (g, s) else .error "unknown guild"
      | none => .error "unknown guild"
    deleteGuild := fun gid s =>
      match s.guild with
      | some g => if g.id == gid then .ok ⟨none, s.channels⟩ else .error "unknown guild"
      | none => .error "unknown guild" }

/-- A server configuration: every schema attribute with the given values;
a zero value (empty string / zero int) means the attribute is unset. -/
def configData (nm rg ow ach : String) (vl ecf dmn ato : Int) : ResourceData :=
  { id := ""
    attrs := [("name", .vStr nm), ("region", .vStr rg), ("owner_id", .vStr ow),
              ("afk_channel_id", .vStr ach), ("verification_level", .vInt vl),
              ("explicit_content_filter", .vInt ecf),
              ("default_message_notifications", .vInt dmn),
              ("afk_timeout", .vInt ato)]
    hasChangeKeys := [] }

/-- Creating from a configuration against the mock, then reading the
resource back: the diagnostics of both runs and the final state. -/
def roundtrip (nm rg ow ach : String) (vl ecf dmn ato : Int) :
    Diagnostics × Diagnostics × ResourceData :=
  let r1 := resourceServerCreate mockClient envId
    (configData nm rg ow ach vl ecf dmn ato) ⟨none, []⟩
  let r2 := resourceServerRead mockClient r1.data r1.state
  (r1.diags, r2.diags, r2.data)

attribute [simp] roundtrip resourceServerCreate resourceServerRead mockClient
  mockNewGuild applyUpdateParams applyBuilder configData createParams createIcon
  createSplash createAfkChannel createAfkTimeout createEdit createOwnerPatch
  createFinish createSetState deleteChannels mockDefaultChannels mockGuildID
  mockBotID mockDefaultAfkTimeout ResourceData.getOk ResourceData.getStr
  ResourceData.getInt ResourceData.setAttr ResourceData.setId GoValue.isZero
  GoValue.asStr GoValue.asInt Snowflake.isZero errorf envId List.lookup
  UpdateBuilder.mk0 UpdateBuilder.setIcon UpdateBuilder.setAfkChannelID
  UpdateBuilder.setAfkTimeout UpdateBuilder.setOwnerID
  UpdateBuilder.setVerificationLevel UpdateBuilder.setDefaultMessageNotifications
  UpdateBuilder.setExplicitContentFilter UpdateBuilder.setName
  UpdateBuilder.setRegion

set_option maxHeartbeats 2000000 in
/-- C6: against the mock API, creating a server from a configuration and
then reading it back yields the configured attributes in state: always for
`name`, `region`, `verification_level`, `explicit_content_filter` and
`default_message_notifications`, and for `afk_timeout`, `afk_channel_id`
and `owner_id` whenever they are configured (as well-formed snowflake
strings). -/
theorem create_read_roundtrip (nm rg ow ach : String) (vl ecf dmn ato : Int)
    (hato : 0 ≤ ato)
    (hach : ach ≠ "" → parseSnowflakeString ach ≠ 0 ∧
      Snowflake.toStr (parseSnowflakeString ach) = ach)
    (how : ow ≠ "" → parseSnowflakeString ow ≠ 0 ∧
      Snowflake.toStr (parseSnowflakeString ow) = ow) :
    (roundtrip nm rg ow ach vl ecf dmn ato).1 = [] ∧
    (roundtrip nm rg ow ach vl ecf dmn ato).2.1 = [] ∧
    (roundtrip nm rg ow ach vl ecf dmn ato).2.2.getStr "name" = nm ∧
    (roundtrip nm rg ow ach vl ecf dmn ato).2.2.getStr "region" = rg ∧
    (roundtrip nm rg ow ach vl ecf dmn ato).2.2.getInt "verification_level" = vl ∧
    (roundtrip nm rg ow ach vl ecf dmn ato).2.2.getInt "explicit_content_filter" = ecf ∧
    (roundtrip nm rg ow ach vl ecf dmn ato).2.2.getInt "default_message_notifications" = dmn ∧
    (ato ≠ 0 → (roundtrip nm rg ow ach vl ecf dmn ato).2.2.getInt "afk_timeout" = ato) ∧
    (ach ≠ "" → (roundtrip nm rg ow ach vl ecf dmn ato).2.2.getStr "afk_channel_id" = ach) ∧
    (ow ≠ "" → (roundtrip nm rg ow ach vl ecf dmn ato).2.2.getStr "owner_id" = ow) := by
  have hid : getId (Snowflake.toStr 99) = 99 := by decide
  have hcast : ((Int.toNat ato : Nat) : Int) = ato := Int.toNat_of_nonneg hato
  by_cases hach0 : ach = ""
  · by_cases hato0 : ato = 0
    · by_cases how0 : ow = ""
      · simp [hach0, hato0, how0, hid]
      · obtain ⟨hownz, howrt⟩ := how how0
        have hbow0 : (ow == "") = false := beq_eq_false_iff_ne.mpr how0
        have hbow : (parseSnowflakeString ow == 0) = false :=
          beq_eq_false_iff_ne.mpr hownz
        by_cases hpar : parseSnowflakeString ow = 1
        · have howrt1 : Snowflake.toStr 1 = ow := by rw [← hpar]; exact howrt
          simp [hach0, hato0, how0, hid, hbow0, hbow, hpar, howrt1]
        · have hbne : ((1 : Nat) != parseSnowflakeString ow) = true := by
            simp only [bne_iff_ne, ne_eq]
            exact fun h => hpar h.symm
          simp [hach0, hato0, how0, hid, hbow0, hbow, hbne, howrt]
    · have hbato : (ato == 0) = false := beq_eq_false_iff_ne.mpr hato0
      by_cases how0 : ow = ""
      · simp [hach0, hato0, how0, hid, hbato, hcast]
      · obtain ⟨hownz, howrt⟩ := how how0
        have hbow0 : (ow == "") = false := beq_eq_false_iff_ne.mpr how0
        have hbow : (parseSnowflakeString ow == 0) = false :=
          beq_eq_false_iff_ne.mpr hownz
        by_cases hpar : parseSnowflakeString ow = 1
        · have howrt1 : Snowflake.toStr 1 = ow := by rw [← hpar]; exact howrt
          simp [hach0, hato0, how0, hid, hbato, hcast, hbow0, hbow, hpar, howrt1]
        · have hbne : ((1 : Nat) != parseSnowflakeString ow) = true := by
            simp only [bne_iff_ne, ne_eq]
            exact fun h => hpar h.symm
          simp [hach0, hato0, how0, hid, hbato, hcast, hbow0, hbow, hbne, howrt]
  · obtain ⟨hachnz, hachrt⟩ := hach hach0
    have hbach0 : (ach == "") = false := beq_eq_false_iff_ne.mpr hach0
    have hbach : (parseSnowflakeString ach == 0) = false :=
      beq_eq_false_iff_ne.mpr hachnz
    by_cases hato0 : ato = 0
    · by_cases how0 : ow = ""
      · simp [hach0, hato0, how0, hid, hbach0, hbach, hachrt]
      · obtain ⟨hownz, howrt⟩ := how how0
        have hbow0 : (ow == "") = false := beq_eq_false_iff_ne.mpr how0
        have hbow : (parseSnowflakeString ow == 0) = false :=
          beq_eq_false_iff_ne.mpr hownz
        by_cases hpar : parseSnowflakeString ow = 1
        · have howrt1 : Snowflake.toStr 1 = ow := by rw [← hpar]; exact howrt
          simp [hach0, hato0, how0, hid, hbach0, hbach, hachrt, hbow0, hbow,
            hpar, howrt1]
        · have hbne : ((1 : Nat) != parseSnowflakeString ow) = true := by
            simp only [bne_iff_ne, ne_eq]
            exact fun h => hpar h.symm
          simp [hach0, hato0, how0, hid, hbach0, hbach, hachrt, hbow0, hbow,
            hbne, howrt]
    · have hbato : (ato == 0) = false := beq_eq_false_iff_ne.mpr hato0
      by_cases how0 : ow = ""
      · simp [hach0, hato0, how0, hid, hbach0, hbach, hachrt, hbato, hcast]
      · obtain ⟨hownz, howrt⟩ := how how0
        have hbow0 : (ow == "") = false := beq_eq_false_iff_ne.mpr how0
        have hbow : (parseSnowflakeString ow == 0) = false :=
          beq_eq_false_iff_ne.mpr hownz
        by_cases hpar : parseSnowflakeString ow = 1
        · have howrt1 : Snowflake.toStr 1 = ow := by rw [← hpar]; exact howrt
          simp [hach0, hato0, how0, hid, hbach0, hbach, hachrt, hbato, hcast,
            hbow0, hbow, hpar, howrt1]
        · have hbne : ((1 : Nat) != parseSnowflakeString ow) = true := by
            simp only [bne_iff_ne, ne_eq]
            exact fun h => hpar h.symm
          simp [hach0, hato0, how0, hid, hbach0, hbach, hachrt, hbato, hcast,
            hbow0, hbow, hbne, howrt]

/-- Witness for C6 at a fully concrete configuration. -/
theorem create_read_roundtrip_witness :
    ((0 : Int) ≤ 60) ∧
      ((roundtrip "srv" "us-west" "5" "7" 3 1 1 60).1 = [] ∧
      (roundtrip "srv" "us-west" "5" "7" 3 1 1 60).2.1 = [] ∧
      (roundtrip "srv" "us-west" "5" "7" 3 1 1 60).2.2.getStr "name" = "srv" ∧
      (roundtrip "srv" "us-west" "5" "7" 3 1 1 60).2.2.getStr "region" = "us-west" ∧
      (roundtrip "srv" "us-west" "5" "7" 3 1 1 60).2.2.getInt "verification_level" = 3 ∧
      (roundtrip "srv" "us-west" "5" "7" 3 1 1 60).2.2.getInt "explicit_content_filter" = 1 ∧
      (roundtrip "srv" "us-west" "5" "7" 3 1 1 60).2.2.getInt "default_message_notifications" = 1 ∧
      ((60 : Int) ≠ 0 → (roundtrip "srv" "us-west" "5" "7" 3 1 1 60).2.2.getInt "afk_timeout" = 60) ∧
      ("7" ≠ "" → (roundtrip "srv" "us-west" "5" "7" 3 1 1 60).2.2.getStr "afk_channel_id" = "7") ∧
      ("5" ≠ "" → (roundtrip "srv" "us-west" "5" "7" 3 1 1 60).2.2.getStr "owner_id" = "5")) :=
  ⟨by decide, create_read_roundtrip "srv" "us-west" "5" "7" 3 1 1 60 (by decide)
    (fun _ => ⟨by decide, by decide⟩) (fun _ => ⟨by decide, by decide⟩)⟩

end DiscordProvider
